import Mathlib

/-!
Verification development for the Intelligent Dual-Axis Solar Tracking System.

The Python sources are shallowly embedded over the real numbers:

* src/core/solar_model.py    : equation_of_time, solar_declination,
  calculate_solar_time, hour_angle, zenith_and_azimuth, get_target_angles.
* src/core/tracking_logic.py : the DualAxisTracker state machine; the
  per-instance configuration (latitude, longitude, utc offset) is passed as
  explicit arguments, and the mutable instance fields form TrackerState.
  The diagnostic-only reason string of the skip dictionary and the extra
  zenith / solar_time diagnostics of the commit dictionary are omitted.
* src/core/ai_predictive.py  : PredictiveController.optimize_movement, with
  the black-box IrradiancePredictor.predict passed as a function argument.
* src/simulator.py           : simulate_day as a fallible loop over the 144
  ten-minute ticks of one day; the only Python failure point is the
  temperature lookup, which raises IndexError on an empty list.

Python datetime values are modelled by the Datetime structure below: the
attributes the code actually reads (day of year, hour, minute, second) plus
an absolute minute count used for datetime subtraction.
-/

open Real

/-- The attributes of a Python datetime that the sources read, plus an
absolute time in minutes used to model datetime subtraction. -/
structure Datetime where
  dayOfYear : ℕ
  hour : ℕ
  minute : ℕ
  second : ℕ
  absMinutes : ℝ

/-- Python float modulo for a positive modulus: the remainder lies in
[0, m). Models the % operator of solar_model.py and tracking_logic.py. -/
noncomputable def pymod (x m : ℝ) : ℝ := x - m * ⌊x / m⌋

lemma pymod_nonneg {m : ℝ} (hm : 0 < m) (x : ℝ) : 0 ≤ pymod x m := by
  have h := Int.floor_le (x / m)
  have h2 : m * (⌊x / m⌋ : ℝ) ≤ m * (x / m) :=
    mul_le_mul_of_nonneg_left h (le_of_lt hm)
  have h3 : m * (x / m) = x := by field_simp
  simp only [pymod]
  nlinarith

lemma pymod_lt {m : ℝ} (hm : 0 < m) (x : ℝ) : pymod x m < m := by
  have h := Int.lt_floor_add_one (x / m)
  have h2 : m * (x / m) < m * ((⌊x / m⌋ : ℝ) + 1) :=
    mul_lt_mul_of_pos_left h hm
  have h3 : m * (x / m) = x := by field_simp
  simp only [pymod]
  nlinarith

lemma pymod_eq_self {m x : ℝ} (hm : 0 < m) (h0 : 0 ≤ x) (hx : x < m) :
    pymod x m = x := by
  have hfl : ⌊x / m⌋ = 0 := by
    rw [Int.floor_eq_zero_iff]
    constructor
    · exact div_nonneg h0 (le_of_lt hm)
    · rw [div_lt_one hm] at *
      exact hx
  simp [pymod, hfl]

/-! ## Solar Position Model (src/core/solar_model.py) -/

/-- Degrees to radians, as math.radians. -/
noncomputable def radians (d : ℝ) : ℝ := d * Real.pi / 180

/-- Radians to degrees, as math.degrees. -/
noncomputable def degrees (r : ℝ) : ℝ := r * 180 / Real.pi

/-- Equation of Time (minutes) for day of year n; solar_model.py lines 4-14. -/
noncomputable def equation_of_time (n : ℕ) : ℝ :=
  let B := radians (((n : ℝ) - 1) * 360 / 365)
  229.18 * (0.000075
    + 0.001868 * Real.cos B
    - 0.032077 * Real.sin B
    - 0.014615 * Real.cos (2 * B)
    - 0.040849 * Real.sin (2 * B))

/-- Solar declination (degrees) for day of year n; solar_model.py lines 19-22. -/
noncomputable def solar_declination (n : ℕ) : ℝ :=
  23.45 * Real.sin (radians ((360 / 365) * (284 + (n : ℝ))))

/-- Standard meridian longitude; solar_model.py lines 24-26. -/
def standard_meridian (utc_offset_hours : ℝ) : ℝ := utc_offset_hours * 15

/-- Time correction (minutes); solar_model.py lines 28-37. -/
noncomputable def solar_time_correction (longitude utc_offset_hours : ℝ) (n : ℕ) : ℝ :=
  4 * (longitude - standard_meridian utc_offset_hours) + equation_of_time n

/-- Solar time in fractional hours, wrapped to [0, 24); solar_model.py lines 39-48. -/
noncomputable def calculate_solar_time (dt_local : Datetime) (longitude utc_offset_hours : ℝ) : ℝ :=
  let n := dt_local.dayOfYear
  let tc_minutes := solar_time_correction longitude utc_offset_hours n
  let local_time_hours : ℝ :=
    (dt_local.hour : ℝ) + (dt_local.minute : ℝ) / 60 + (dt_local.second : ℝ) / 3600
  pymod (local_time_hours + tc_minutes / 60) 24

/-- Hour angle in degrees; solar_model.py lines 50-53. -/
def hour_angle (solar_time_hours : ℝ) : ℝ := 15 * (solar_time_hours - 12)

/-- Solar zenith and azimuth angles in degrees; solar_model.py lines 55-86.
The cosine of the zenith is clamped to [-1, 1] before arccos, and azimuth
is mirrored about 360 degrees in the afternoon (hour angle positive). -/
noncomputable def zenith_and_azimuth (latitude declination hour_angle_deg : ℝ) : ℝ × ℝ :=
  let lat_rad := radians latitude
  let dec_rad := radians declination
  let h_rad := radians hour_angle_deg
  let cos_theta_z :=
    Real.sin lat_rad * Real.sin dec_rad + Real.cos lat_rad * Real.cos dec_rad * Real.cos h_rad
  let cos_theta_z := max (-1) (min 1 cos_theta_z)
  let zenith_rad := Real.arccos cos_theta_z
  let zenith_deg := degrees zenith_rad
  let sin_theta_z := Real.sin zenith_rad
  if sin_theta_z > 0.001 then
    let cos_gamma :=
      (Real.sin dec_rad * Real.cos lat_rad
        - Real.cos dec_rad * Real.sin lat_rad * Real.cos h_rad) / sin_theta_z
    let cos_gamma := max (-1) (min 1 cos_gamma)
    let azimuth_deg := degrees (Real.arccos cos_gamma)
    if hour_angle_deg > 0 then (zenith_deg, 360 - azimuth_deg) else (zenith_deg, azimuth_deg)
  else
    (zenith_deg, 0)

/-- The sun geometry returned by get_target_angles; solar_model.py lines 100-107. -/
structure SolarGeometry where
  tilt : ℝ
  azimuth : ℝ
  zenith : ℝ
  declination : ℝ
  solar_time : ℝ
  hour_angle : ℝ

/-- Optimal dual-axis target angles; solar_model.py lines 88-107.
The optimal tilt equals the zenith angle. -/
noncomputable def get_target_angles (dt_local : Datetime) (latitude longitude utc_offset_hours : ℝ) :
    SolarGeometry :=
  let n := dt_local.dayOfYear
  let declination := solar_declination n
  let solar_time := calculate_solar_time dt_local longitude utc_offset_hours
  let h_deg := hour_angle solar_time
  let za := zenith_and_azimuth latitude declination h_deg
  ⟨za.1, za.2, za.1, declination, solar_time, h_deg⟩

/-! ## Tracker State Machine (src/core/tracking_logic.py) -/

/-- The action tag of the dictionary returned by DualAxisTracker.update. -/
inductive TrackerAction
  | skip
  | track
  | winter_optimized
  | stow
deriving DecidableEq

/-- The mutable instance fields of DualAxisTracker; tracking_logic.py
lines 11-15. The immutable configuration (latitude, longitude, utc offset)
is passed to update as explicit arguments. -/
structure TrackerState where
  current_tilt : ℝ
  current_azimuth : ℝ
  last_update_time : Option Datetime
  is_winter_mode_active : Bool

/-- The fields of the dictionary returned by DualAxisTracker.update that
carry tracker data (the diagnostic reason / zenith / solar_time entries are
omitted). -/
structure UpdateResult where
  action : TrackerAction
  tilt : ℝ
  azimuth : ℝ
  winter_mode : Bool

/-- Initial state set by DualAxisTracker.init: tilt 0, azimuth 0, no
previous update, winter mode off; tracking_logic.py lines 12-15. -/
def initState : TrackerState := ⟨0, 0, none, false⟩

/-- One call of DualAxisTracker.update; tracking_logic.py lines 17-81.
Returns the new state paired with the returned command dictionary. -/
noncomputable def DualAxisTracker.update (latitude longitude utc_offset : ℝ)
    (s : TrackerState) (dt_local : Datetime) (temperature_c : ℝ)
    (snow_detected : Bool) (min_update_interval_minutes : ℝ) :
    TrackerState × UpdateResult :=
  let is_winter_mode_active : Bool := if temperature_c < 2 then snow_detected else false
  let update_interval : ℝ := if is_winter_mode_active then 60 else min_update_interval_minutes
  let must_skip : Bool :=
    match s.last_update_time with
    | none => false
    | some last =>
        if dt_local.absMinutes - last.absMinutes < update_interval then true else false
  if must_skip then
    (⟨s.current_tilt, s.current_azimuth, s.last_update_time, is_winter_mode_active⟩,
     ⟨TrackerAction.skip, s.current_tilt, s.current_azimuth, is_winter_mode_active⟩)
  else
    let optimal := get_target_angles dt_local latitude longitude utc_offset
    let step1 : ℝ × ℝ × TrackerAction :=
      if is_winter_mode_active then
        (max optimal.tilt 65, s.current_azimuth, TrackerAction.winter_optimized)
      else
        (optimal.tilt, optimal.azimuth, TrackerAction.track)
    let step2 : ℝ × ℝ × TrackerAction :=
      if optimal.zenith > 90 then
        ((if is_winter_mode_active then (65 : ℝ) else 0), 180, TrackerAction.stow)
      else
        step1
    let target_tilt := max 0 (min 90 step2.1)
    let target_azimuth := pymod step2.2.1 360
    (⟨target_tilt, target_azimuth, some dt_local, is_winter_mode_active⟩,
     ⟨step2.2.2, target_tilt, target_azimuth, is_winter_mode_active⟩)

/-! ## Predictive Movement Controller (src/core/ai_predictive.py) -/

/-- Decision dictionary of PredictiveController.optimize_movement (the
reason string is omitted); ai_predictive.py lines 92-106. -/
structure MoveDecision where
  move_approved : Bool
  predicted_irradiance : ℝ
  final_tilt : ℝ
  final_azimuth : ℝ

/-- Expected energy over ten minutes when the tracker moves to the target:
predicted irradiance scaled by panel area and efficiency; ai_predictive.py
lines 73 and 85. -/
noncomputable def expected_energy_moving_wh (predicted_irradiance area efficiency : ℝ) : ℝ :=
  predicted_irradiance * area * efficiency * (10 / 60)

/-- Energy gain of moving versus staying as computed inside
optimize_movement; ai_predictive.py lines 73-88. -/
noncomputable def energy_gain (predicted_irradiance area efficiency
    current_tilt target_tilt current_azimuth target_azimuth : ℝ) : ℝ :=
  let expected_power_moving := predicted_irradiance * area * efficiency
  let tilt_diff_rad := radians (target_tilt - current_tilt)
  let az_diff_rad := radians (target_azimuth - current_azimuth)
  let incidence_cos := max 0 (Real.cos tilt_diff_rad * Real.cos az_diff_rad)
  let expected_power_staying := predicted_irradiance * area * efficiency * incidence_cos
  let time_delta_h : ℝ := 10 / 60
  expected_power_moving * time_delta_h - expected_power_staying * time_delta_h

/-- PredictiveController.optimize_movement; ai_predictive.py lines 56-106.
The IrradiancePredictor is a black-box regression model, so its predict
method is passed as the function argument predict; motor_energy_cost is the
controller configuration (default 2.5 Wh in the source). -/
noncomputable def optimize_movement (predict : ℝ → ℝ → ℝ → ℝ → ℝ)
    (motor_energy_cost : ℝ)
    (current_tilt target_tilt current_azimuth target_azimuth : ℝ)
    (dt_local : Datetime) (temp cloud_cover zenith : ℝ)
    (area efficiency : ℝ) : MoveDecision :=
  let hour : ℝ := (dt_local.hour : ℝ) + (dt_local.minute : ℝ) / 60
  let predicted_irradiance := predict hour temp cloud_cover zenith
  let gain := energy_gain predicted_irradiance area efficiency
    current_tilt target_tilt current_azimuth target_azimuth
  if gain ≤ motor_energy_cost then
    ⟨false, predicted_irradiance, current_tilt, current_azimuth⟩
  else
    ⟨true, predicted_irradiance, target_tilt, target_azimuth⟩

/-! ## Day Simulator (src/simulator.py) -/

/-- The Python exception raised by simulate_day's temperature lookup on an
empty list (temps with index -1). The source defines no other failure
path and no InvalidInputError. -/
inductive PyError
  | indexError
deriving DecidableEq

/-- One row of the simulation output; simulator.py lines 60-74. -/
structure SimRecord where
  time : Datetime
  hour : ℝ
  zenith : ℝ
  opt_tilt : ℝ
  opt_azimuth : ℝ
  dual_tilt : ℝ
  dual_azimuth : ℝ
  is_winter : Bool
  temp_c : ℝ
  irradiance : ℝ
  power_dual : ℝ
  power_single : ℝ
  power_fixed : ℝ

/-- Temperature resolution of simulator.py line 27: temps with index
hour_int when in range, else temps with index -1, which raises IndexError
on an empty list. -/
def lookupTemp (temps : List ℝ) (hour_int : ℕ) : Except PyError ℝ :=
  if h : hour_int < temps.length then Except.ok (temps.get ⟨hour_int, h⟩)
  else
    match temps.getLast? with
    | some t => Except.ok t
    | none => Except.error PyError.indexError

/-- The local datetime of the simulation tick that starts m minutes after
midnight of a day with day-of-year n; simulator.py lines 19-22. -/
def tickTime (n m : ℕ) : Datetime := ⟨n, m / 60, m % 60, 0, (m : ℝ)⟩

/-- One iteration of the simulate_day loop body; simulator.py lines 21-74. -/
noncomputable def simTick (day_of_year : ℕ) (lat lon utc_offset : ℝ)
    (temps : List ℝ) (snow_detected : Bool) (fixed_tilt fixed_azimuth : ℝ)
    (tracker : TrackerState) (minutes : ℕ) :
    Except PyError (TrackerState × SimRecord) :=
  let current_time := tickTime day_of_year minutes
  let hour_frac : ℝ := (current_time.hour : ℝ) + (current_time.minute : ℝ) / 60
  let hour_int := current_time.hour
  match lookupTemp temps hour_int with
  | Except.error e => Except.error e
  | Except.ok temp_now =>
    let optimal := get_target_angles current_time lat lon utc_offset
    let zenith := optimal.zenith
    let irradiance_direct : ℝ :=
      if zenith < 90 then 1000 * Real.cos (radians zenith) else 0
    let st := DualAxisTracker.update lat lon utc_offset tracker current_time
      temp_now snow_detected 10
    let dual_tilt := st.2.tilt
    let dual_azimuth := st.2.azimuth
    let is_winter := st.2.winter_mode
    let dual_inc_cos := max 0 (Real.cos (radians (optimal.tilt - dual_tilt)) *
      Real.cos (radians (optimal.azimuth - dual_azimuth)))
    let dual_power := irradiance_direct * dual_inc_cos
    let fixed_inc_cos := max 0 (Real.cos (radians (optimal.tilt - fixed_tilt)) *
      Real.cos (radians (optimal.azimuth - fixed_azimuth)))
    let fixed_power := irradiance_direct * fixed_inc_cos
    let single_inc_cos := max 0 (Real.cos (radians (optimal.tilt - fixed_tilt)))
    let single_power := irradiance_direct * single_inc_cos
    Except.ok (st.1,
      ⟨current_time, hour_frac, zenith, optimal.tilt, optimal.azimuth,
       dual_tilt, dual_azimuth, is_winter, temp_now, irradiance_direct,
       dual_power, single_power, fixed_power⟩)

/-- The simulate_day loop over a list of tick offsets (minutes after
midnight), threading the tracker state; simulator.py lines 21-76. -/
noncomputable def simLoop (day_of_year : ℕ) (lat lon utc_offset : ℝ)
    (temps : List ℝ) (snow_detected : Bool) (fixed_tilt fixed_azimuth : ℝ) :
    TrackerState → List ℕ → Except PyError (List SimRecord)
  | _, [] => Except.ok []
  | tracker, m :: ms =>
    match simTick day_of_year lat lon utc_offset temps snow_detected
        fixed_tilt fixed_azimuth tracker m with
    | Except.error e => Except.error e
    | Except.ok tr =>
      match simLoop day_of_year lat lon utc_offset temps snow_detected
          fixed_tilt fixed_azimuth tr.1 ms with
      | Except.error e => Except.error e
      | Except.ok recs => Except.ok (tr.2 :: recs)

/-- simulate_day; simulator.py lines 7-77. The date argument is modelled by
its day of year; the 144 ticks are minutes 0, 10, ..., 1430. The function
contains no input validation: the only failure path is the IndexError of
the temperature lookup. -/
noncomputable def simulate_day (day_of_year : ℕ) (lat lon utc_offset : ℝ)
    (temps : List ℝ) (snow_detected : Bool) (fixed_tilt fixed_azimuth : ℝ) :
    Except PyError (List SimRecord) :=
  simLoop day_of_year lat lon utc_offset temps snow_detected fixed_tilt
    fixed_azimuth initState ((List.range 144).map (fun k => k * 10))

/-- Success test for a simulate_day outcome. -/
def simOk : Except PyError (List SimRecord) → Bool
  | Except.ok _ => true
  | Except.error _ => false

/-! ## General helper lemmas -/

lemma winter_flag_iff (temp : ℝ) (snow : Bool) :
    ((if temp < 2 then snow else false) = true) ↔ (temp < 2 ∧ snow = true) := by
  by_cases h : temp < 2 <;> simp [h]

lemma degrees_nonneg {r : ℝ} (h : 0 ≤ r) : 0 ≤ degrees r :=
  div_nonneg (by nlinarith) (le_of_lt Real.pi_pos)

lemma degrees_le_degrees {a b : ℝ} (h : a ≤ b) : degrees a ≤ degrees b := by
  unfold degrees
  have hp := Real.pi_pos
  rw [div_le_div_iff₀ hp hp]
  nlinarith

lemma degrees_lt_degrees {a b : ℝ} (h : a < b) : degrees a < degrees b := by
  unfold degrees
  have hp := Real.pi_pos
  rw [div_lt_div_iff₀ hp hp]
  nlinarith

lemma degrees_pi : degrees Real.pi = 180 := by
  unfold degrees
  field_simp

lemma degrees_pi_div_two : degrees (Real.pi / 2) = 90 := by
  unfold degrees
  field_simp
  ring

lemma arccos_gt_pi_div_two {x : ℝ} (h : x < 0) : Real.pi / 2 < Real.arccos x := by
  rw [Real.arccos_eq_pi_div_two_sub_arcsin]
  have := Real.arcsin_lt_zero.mpr h
  linarith

lemma arccos_lt_pi_div_two {x : ℝ} (h : 0 < x) : Real.arccos x < Real.pi / 2 := by
  rw [Real.arccos_eq_pi_div_two_sub_arcsin]
  have := Real.arcsin_pos.mpr h
  linarith

lemma zenith_and_azimuth_fst (lat dec h : ℝ) :
    (zenith_and_azimuth lat dec h).1 =
      degrees (Real.arccos (max (-1) (min 1
        (Real.sin (radians lat) * Real.sin (radians dec) +
         Real.cos (radians lat) * Real.cos (radians dec) * Real.cos (radians h))))) := by
  simp only [zenith_and_azimuth]
  split_ifs <;> rfl

lemma abs_solar_declination_le (n : ℕ) : |solar_declination n| ≤ 23.45 := by
  unfold solar_declination
  rw [abs_mul]
  have h1 : |Real.sin (radians ((360 / 365) * (284 + (n : ℝ))))| ≤ 1 :=
    abs_le.mpr ⟨Real.neg_one_le_sin _, Real.sin_le_one _⟩
  have h2 : |(23.45 : ℝ)| = 23.45 := by norm_num
  rw [h2]
  nlinarith [abs_nonneg (Real.sin (radians ((360 / 365) * (284 + (n : ℝ)))))]

lemma cos_radians_of_abs_le {d : ℝ} (h : |d| ≤ 23.45) : 0 < Real.cos (radians d) := by
  have hp := Real.pi_pos
  have hd := abs_le.mp h
  apply Real.cos_pos_of_mem_Ioo
  constructor
  · unfold radians
    nlinarith [hd.1]
  · unfold radians
    nlinarith [hd.2]

lemma cos_radians_dec_pos (n : ℕ) : 0 < Real.cos (radians (solar_declination n)) :=
  cos_radians_of_abs_le (abs_solar_declination_le n)

lemma solar_time_bounds (dt : Datetime) (lon off : ℝ) :
    0 ≤ calculate_solar_time dt lon off ∧ calculate_solar_time dt lon off < 24 := by
  unfold calculate_solar_time
  exact ⟨pymod_nonneg (by norm_num) _, pymod_lt (by norm_num) _⟩

lemma pymod_add_24_of_neg {x : ℝ} (h1 : -24 ≤ x) (h2 : x < 0) : pymod x 24 = x + 24 := by
  have hfl : ⌊x / 24⌋ = -1 := by
    have ha : (-1 : ℝ) ≤ x / 24 := by
      rw [le_div_iff₀ (by norm_num : (0:ℝ) < 24)]
      linarith
    have hb : x / 24 < 0 := div_neg_of_neg_of_pos h2 (by norm_num)
    rw [Int.floor_eq_iff]
    push_cast
    exact ⟨ha, by linarith⟩
  unfold pymod
  rw [hfl]
  push_cast
  ring

/-! ## Concrete scenario: day of year 1, latitude 0, longitude 0, UTC offset 0.
At local midnight the solar zenith exceeds 90 degrees (night) and at local
noon it is below 90 degrees (day); both facts follow from the closed-form
equation of time on day 1. -/

/-- Local midnight of day 1 (absolute minute 0). -/
def dtNight : Datetime := ⟨1, 0, 0, 0, 0⟩

/-- Local noon of day 1 (absolute minute 720). -/
def dtDay : Datetime := ⟨1, 12, 0, 0, 720⟩

lemma eot_one : equation_of_time 1 = -2.90416896 := by
  unfold equation_of_time radians
  norm_num [Real.cos_zero, Real.sin_zero]

lemma st_night : calculate_solar_time dtNight 0 0 = 24 - 2.90416896 / 60 := by
  unfold calculate_solar_time solar_time_correction standard_meridian dtNight
  simp only [eot_one]
  norm_num
  rw [pymod_add_24_of_neg (by norm_num) (by norm_num)]
  norm_num

lemma st_day : calculate_solar_time dtDay 0 0 = 12 - 2.90416896 / 60 := by
  unfold calculate_solar_time solar_time_correction standard_meridian dtDay
  simp only [eot_one]
  norm_num
  rw [pymod_eq_self (by norm_num) (by norm_num) (by norm_num)]

lemma cos_h_night_neg : Real.cos (radians (15 * (24 - 2.90416896 / 60 - 12))) < 0 := by
  have hp := Real.pi_pos
  apply Real.cos_neg_of_pi_div_two_lt_of_lt
  · unfold radians
    nlinarith
  · unfold radians
    nlinarith

lemma cos_h_day_pos : 0 < Real.cos (radians (15 * (12 - 2.90416896 / 60 - 12))) := by
  have hp := Real.pi_pos
  apply Real.cos_pos_of_mem_Ioo
  constructor
  · unfold radians
    nlinarith
  · unfold radians
    nlinarith

lemma night_zenith_gt_90 : 90 < (get_target_angles dtNight 0 0 0).zenith := by
  unfold get_target_angles hour_angle
  simp only [st_night, zenith_and_azimuth_fst]
  have h0 : radians 0 = 0 := by
    unfold radians
    ring
  rw [h0, Real.sin_zero, Real.cos_zero]
  set d := Real.cos (radians (solar_declination dtNight.dayOfYear)) with hd
  set ch := Real.cos (radians (15 * (24 - 2.90416896 / 60 - 12))) with hch
  have hdpos : 0 < d := cos_radians_dec_pos _
  have hdle : d ≤ 1 := Real.cos_le_one _
  have hchneg : ch < 0 := cos_h_night_neg
  have hchge : -1 ≤ ch := Real.neg_one_le_cos _
  have hc_neg : 0 * Real.sin (radians (solar_declination dtNight.dayOfYear)) + 1 * d * ch < 0 := by
    nlinarith
  have hc_ge : (-1 : ℝ) ≤ 0 * Real.sin (radians (solar_declination dtNight.dayOfYear)) + 1 * d * ch := by
    nlinarith
  set c := 0 * Real.sin (radians (solar_declination dtNight.dayOfYear)) + 1 * d * ch with hc
  have hclamp : max (-1) (min 1 c) = c := by
    rw [min_eq_right (by linarith), max_eq_right (by linarith)]
  rw [hclamp]
  have harc : Real.pi / 2 < Real.arccos c := arccos_gt_pi_div_two hc_neg
  calc (90 : ℝ) = degrees (Real.pi / 2) := degrees_pi_div_two.symm
    _ < degrees (Real.arccos c) := degrees_lt_degrees harc

lemma day_zenith_lt_90 : (get_target_angles dtDay 0 0 0).zenith < 90 := by
  unfold get_target_angles hour_angle
  simp only [st_day, zenith_and_azimuth_fst]
  have h0 : radians 0 = 0 := by
    unfold radians
    ring
  rw [h0, Real.sin_zero, Real.cos_zero]
  set d := Real.cos (radians (solar_declination dtDay.dayOfYear)) with hd
  set ch := Real.cos (radians (15 * (12 - 2.90416896 / 60 - 12))) with hch
  have hdpos : 0 < d := cos_radians_dec_pos _
  have hdle : d ≤ 1 := Real.cos_le_one _
  have hchpos : 0 < ch := cos_h_day_pos
  have hchle : ch ≤ 1 := Real.cos_le_one _
  have hc_pos : 0 < 0 * Real.sin (radians (solar_declination dtDay.dayOfYear)) + 1 * d * ch := by
    nlinarith
  have hc_le : 0 * Real.sin (radians (solar_declination dtDay.dayOfYear)) + 1 * d * ch ≤ 1 := by
    nlinarith
  set c := 0 * Real.sin (radians (solar_declination dtDay.dayOfYear)) + 1 * d * ch with hc
  have hclamp : max (-1) (min 1 c) = c := by
    rw [min_eq_right (by linarith), max_eq_right (by linarith)]
  rw [hclamp]
  have harc : Real.arccos c < Real.pi / 2 := arccos_lt_pi_div_two hc_pos
  calc degrees (Real.arccos c) < degrees (Real.pi / 2) := degrees_lt_degrees harc
    _ = 90 := degrees_pi_div_two

/-! ## Characterization of DualAxisTracker.update -/

/-- The commit path of DualAxisTracker.update (tracking_logic.py lines
40-81) as a function of the recomputed winter flag w. -/
noncomputable def commitResult (latitude longitude utc_offset : ℝ)
    (s : TrackerState) (dt_local : Datetime) (w : Bool) :
    TrackerState × UpdateResult :=
  let optimal := get_target_angles dt_local latitude longitude utc_offset
  let step1 : ℝ × ℝ × TrackerAction :=
    if w then
      (max optimal.tilt 65, s.current_azimuth, TrackerAction.winter_optimized)
    else
      (optimal.tilt, optimal.azimuth, TrackerAction.track)
  let step2 : ℝ × ℝ × TrackerAction :=
    if optimal.zenith > 90 then
      ((if w then (65 : ℝ) else 0), 180, TrackerAction.stow)
    else
      step1
  let target_tilt := max 0 (min 90 step2.1)
  let target_azimuth := pymod step2.2.1 360
  (⟨target_tilt, target_azimuth, some dt_local, w⟩,
   ⟨step2.2.2, target_tilt, target_azimuth, w⟩)

lemma update_of_skip (lat lon off : ℝ) (s : TrackerState) (dt : Datetime)
    (temp : ℝ) (snow : Bool) (mi : ℝ) (last : Datetime)
    (hlast : s.last_update_time = some last)
    (hlt : dt.absMinutes - last.absMinutes <
      (if (if temp < 2 then snow else false) = true then (60 : ℝ) else mi)) :
    DualAxisTracker.update lat lon off s dt temp snow mi =
      (⟨s.current_tilt, s.current_azimuth, s.last_update_time,
        if temp < 2 then snow else false⟩,
       ⟨TrackerAction.skip, s.current_tilt, s.current_azimuth,
        if temp < 2 then snow else false⟩) := by
  unfold DualAxisTracker.update
  rw [hlast]
  simp only [hlt, if_true]

lemma update_of_last_none (lat lon off : ℝ) (s : TrackerState) (dt : Datetime)
    (temp : ℝ) (snow : Bool) (mi : ℝ)
    (hlast : s.last_update_time = none) :
    DualAxisTracker.update lat lon off s dt temp snow mi =
      commitResult lat lon off s dt (if temp < 2 then snow else false) := by
  unfold DualAxisTracker.update commitResult
  rw [hlast]
  simp only [Bool.false_eq_true, if_false]

lemma update_of_some_no_skip (lat lon off : ℝ) (s : TrackerState) (dt : Datetime)
    (temp : ℝ) (snow : Bool) (mi : ℝ) (last : Datetime)
    (hlast : s.last_update_time = some last)
    (hge : ¬ (dt.absMinutes - last.absMinutes <
      (if (if temp < 2 then snow else false) = true then (60 : ℝ) else mi))) :
    DualAxisTracker.update lat lon off s dt temp snow mi =
      commitResult lat lon off s dt (if temp < 2 then snow else false) := by
  unfold DualAxisTracker.update commitResult
  rw [hlast]
  simp only [hge, if_false, Bool.false_eq_true]

lemma update_not_skip (lat lon off : ℝ) (s : TrackerState) (dt : Datetime)
    (temp : ℝ) (snow : Bool) (mi : ℝ)
    (h : (DualAxisTracker.update lat lon off s dt temp snow mi).2.action ≠
      TrackerAction.skip) :
    DualAxisTracker.update lat lon off s dt temp snow mi =
      commitResult lat lon off s dt (if temp < 2 then snow else false) := by
  rcases hl : s.last_update_time with _ | last
  · exact update_of_last_none lat lon off s dt temp snow mi hl
  · by_cases hc : dt.absMinutes - last.absMinutes <
        (if (if temp < 2 then snow else false) = true then (60 : ℝ) else mi)
    · exfalso
      apply h
      rw [update_of_skip lat lon off s dt temp snow mi last hl hc]
    · exact update_of_some_no_skip lat lon off s dt temp snow mi last hl hc

lemma commitResult_last (lat lon off : ℝ) (s : TrackerState) (dt : Datetime) (w : Bool) :
    (commitResult lat lon off s dt w).1.last_update_time = some dt := by
  unfold commitResult
  rfl

lemma commitResult_action_ne_skip (lat lon off : ℝ) (s : TrackerState)
    (dt : Datetime) (w : Bool) :
    (commitResult lat lon off s dt w).2.action ≠ TrackerAction.skip := by
  unfold commitResult
  cases w <;>
    by_cases hz : (get_target_angles dt lat lon off).zenith > 90 <;>
    simp [hz]

lemma commitResult_winter_day (lat lon off : ℝ) (s : TrackerState) (dt : Datetime)
    (hz : ¬ ((get_target_angles dt lat lon off).zenith > 90))
    (haz0 : 0 ≤ s.current_azimuth) (haz1 : s.current_azimuth < 360) :
    (commitResult lat lon off s dt true).2.azimuth = s.current_azimuth ∧
    (commitResult lat lon off s dt true).1.current_azimuth = s.current_azimuth := by
  have hmod : pymod s.current_azimuth 360 = s.current_azimuth :=
    pymod_eq_self (by norm_num) haz0 haz1
  unfold commitResult
  simp [hz, hmod]

lemma commitResult_night (lat lon off : ℝ) (s : TrackerState) (dt : Datetime) (w : Bool)
    (hz : (get_target_angles dt lat lon off).zenith > 90) :
    (commitResult lat lon off s dt w).2.tilt = (if w then (65 : ℝ) else 0) ∧
    (commitResult lat lon off s dt w).2.azimuth = 180 := by
  have hmod : pymod (180 : ℝ) 360 = 180 :=
    pymod_eq_self (by norm_num) (by norm_num) (by norm_num)
  unfold commitResult
  cases w <;> simp [hz, hmod]
  norm_num

/-! ## Range bounds for the solar position model -/

lemma degrees_zero : degrees 0 = 0 := by
  unfold degrees
  ring

lemma trig_identity (a b p q u v : ℝ)
    (hab : a ^ 2 + b ^ 2 = 1) (hpq : p ^ 2 + q ^ 2 = 1) (huv : u ^ 2 + v ^ 2 = 1) :
    (p * b - q * a * u) ^ 2 + (a * p + b * q * u) ^ 2 + (q * v) ^ 2 = 1 := by
  linear_combination (p ^ 2 + q ^ 2 * u ^ 2) * hab + q ^ 2 * huv + hpq

lemma zenith_deg_bounds (lat dec h : ℝ) :
    0 ≤ (zenith_and_azimuth lat dec h).1 ∧ (zenith_and_azimuth lat dec h).1 ≤ 180 := by
  rw [zenith_and_azimuth_fst]
  constructor
  · exact degrees_nonneg (Real.arccos_nonneg _)
  · have hle := degrees_le_degrees (Real.arccos_le_pi (max (-1) (min 1
      (Real.sin (radians lat) * Real.sin (radians dec) +
       Real.cos (radians lat) * Real.cos (radians dec) * Real.cos (radians h)))))
    rwa [degrees_pi] at hle

lemma degrees_arccos_bounds (x : ℝ) :
    0 ≤ degrees (Real.arccos x) ∧ degrees (Real.arccos x) ≤ 180 := by
  constructor
  · exact degrees_nonneg (Real.arccos_nonneg x)
  · have h := degrees_le_degrees (Real.arccos_le_pi x)
    rwa [degrees_pi] at h

lemma azimuth_deg_bounds (lat dec h : ℝ) (hdec : |dec| ≤ 23.45) (hh : h < 180) :
    0 ≤ (zenith_and_azimuth lat dec h).2 ∧ (zenith_and_azimuth lat dec h).2 < 360 := by
  simp only [zenith_and_azimuth]
  split_ifs with hs hpos
  all_goals dsimp only
  · -- afternoon branch: azimuth is 360 minus a strictly positive value in (0, 180]
    set c := Real.sin (radians lat) * Real.sin (radians dec) +
      Real.cos (radians lat) * Real.cos (radians dec) * Real.cos (radians h) with hcdef
    set cl := max (-1 : ℝ) (min 1 c) with hcldef
    set s := Real.sin (Real.arccos cl) with hsdef
    set N := Real.sin (radians dec) * Real.cos (radians lat) -
      Real.cos (radians dec) * Real.sin (radians lat) * Real.cos (radians h) with hNdef
    have hs0 : (0 : ℝ) < s := lt_trans (by norm_num : (0 : ℝ) < 0.001) hs
    have hsin : s = Real.sqrt (1 - cl ^ 2) := Real.sin_arccos cl
    have h1c : 0 < 1 - cl ^ 2 := by
      by_contra hcon
      push_neg at hcon
      have hz : Real.sqrt (1 - cl ^ 2) = 0 := Real.sqrt_eq_zero_of_nonpos hcon
      rw [hsin, hz] at hs0
      exact lt_irrefl 0 hs0
    have hclabs : -1 < cl ∧ cl < 1 := by
      have h2 : cl ^ 2 < 1 := by linarith
      have h3 := (sq_lt_one_iff_abs_lt_one cl).mp h2
      exact abs_lt.mp h3
    have hceq : cl = c := by
      rcases le_or_lt c (-1) with hle | hgt
      · exfalso
        have hx : cl = -1 := by
          rw [hcldef, min_eq_right (by linarith), max_eq_left (by linarith)]
        rw [hx] at hclabs
        exact lt_irrefl (-1) hclabs.1
      · rcases le_or_lt 1 c with hge | hlt2
        · exfalso
          have hx : cl = 1 := by
            rw [hcldef, min_eq_left hge, max_eq_right (by norm_num)]
          rw [hx] at hclabs
          exact lt_irrefl 1 hclabs.2
        · rw [hcldef, min_eq_right (le_of_lt hlt2), max_eq_right (by linarith)]
    have hs2 : s ^ 2 = 1 - c ^ 2 := by
      rw [hsin, Real.sq_sqrt (le_of_lt h1c), hceq]
    have hiden := trig_identity (Real.sin (radians lat)) (Real.cos (radians lat))
      (Real.sin (radians dec)) (Real.cos (radians dec))
      (Real.cos (radians h)) (Real.sin (radians h))
      (Real.sin_sq_add_cos_sq _) (Real.sin_sq_add_cos_sq _) (Real.cos_sq_add_sin_sq _)
    rw [← hcdef, ← hNdef] at hiden
    have hq : 0 < Real.cos (radians dec) := cos_radians_of_abs_le hdec
    have hv : 0 < Real.sin (radians h) := by
      have hp := Real.pi_pos
      apply Real.sin_pos_of_pos_of_lt_pi
      · unfold radians
        nlinarith
      · unfold radians
        nlinarith
    have hqv : 0 < (Real.cos (radians dec) * Real.sin (radians h)) ^ 2 := by positivity
    have hN2 : N ^ 2 < s ^ 2 := by nlinarith [hiden, hs2, hqv]
    have hNlt : N < s := by nlinarith [hN2, hs0, sq_nonneg (N - s)]
    have hdiv : N / s < 1 := (div_lt_one hs0).mpr hNlt
    have hcg : max (-1 : ℝ) (min 1 (N / s)) < 1 := by
      apply max_lt (by norm_num)
      exact lt_of_le_of_lt (min_le_right _ _) hdiv
    have harc : 0 < Real.arccos (max (-1 : ℝ) (min 1 (N / s))) := Real.arccos_pos.mpr hcg
    have hdg : 0 < degrees (Real.arccos (max (-1 : ℝ) (min 1 (N / s)))) := by
      have hlt := degrees_lt_degrees harc
      rwa [degrees_zero] at hlt
    have hbd := degrees_arccos_bounds (max (-1 : ℝ) (min 1 (N / s)))
    exact ⟨by linarith [hbd.2], by linarith [hdg]⟩
  · -- morning branch: azimuth is degrees of an arccos, in [0, 180]
    have hbd := degrees_arccos_bounds (max (-1 : ℝ) (min 1
      ((Real.sin (radians dec) * Real.cos (radians lat) -
        Real.cos (radians dec) * Real.sin (radians lat) * Real.cos (radians h)) /
        Real.sin (Real.arccos (max (-1 : ℝ) (min 1
          (Real.sin (radians lat) * Real.sin (radians dec) +
           Real.cos (radians lat) * Real.cos (radians dec) * Real.cos (radians h))))))))
    exact ⟨hbd.1, by linarith [hbd.2]⟩
  · -- sun at zenith: azimuth defined as 0
    exact ⟨le_refl 0, by norm_num⟩

/-! ## Simulator loop lemmas -/

lemma lookupTemp_empty (h : ℕ) :
    lookupTemp [] h = Except.error PyError.indexError := by
  unfold lookupTemp
  rw [dif_neg (by simp)]
  rfl

lemma lookupTemp_ok {temps : List ℝ} (hne : temps ≠ []) (h : ℕ) :
    ∃ t, lookupTemp temps h = Except.ok t := by
  unfold lookupTemp
  split
  · exact ⟨_, rfl⟩
  · cases hl : temps.getLast? with
    | none => exact absurd (List.getLast?_eq_none_iff.mp hl) hne
    | some t => exact ⟨t, rfl⟩

lemma simTick_empty_temps (n : ℕ) (lat lon off : ℝ) (snow : Bool)
    (ft fa : ℝ) (tr : TrackerState) (m : ℕ) :
    simTick n lat lon off [] snow ft fa tr m = Except.error PyError.indexError := by
  simp only [simTick, lookupTemp_empty]

lemma simTick_ok (n : ℕ) (lat lon off : ℝ) {temps : List ℝ} (hne : temps ≠ [])
    (snow : Bool) (ft fa : ℝ) (tr : TrackerState) (m : ℕ) :
    ∃ pr, simTick n lat lon off temps snow ft fa tr m = Except.ok pr := by
  obtain ⟨t, ht⟩ := lookupTemp_ok hne (tickTime n m).hour
  cases hres : simTick n lat lon off temps snow ft fa tr m with
  | ok pr => exact ⟨pr, rfl⟩
  | error e =>
    exfalso
    simp only [simTick, ht] at hres
    exact Except.noConfusion hres

lemma simLoop_empty_temps (n : ℕ) (lat lon off : ℝ) (snow : Bool)
    (ft fa : ℝ) (tr : TrackerState) (m : ℕ) (ms : List ℕ) :
    simLoop n lat lon off [] snow ft fa tr (m :: ms) =
      Except.error PyError.indexError := by
  unfold simLoop
  rw [simTick_empty_temps]

lemma simLoop_ok (n : ℕ) (lat lon off : ℝ) {temps : List ℝ} (hne : temps ≠ [])
    (snow : Bool) (ft fa : ℝ) :
    ∀ (ms : List ℕ) (tr : TrackerState),
      ∃ recs, simLoop n lat lon off temps snow ft fa tr ms = Except.ok recs := by
  intro ms
  induction ms with
  | nil =>
    intro tr
    exact ⟨[], rfl⟩
  | cons m ms ih =>
    intro tr
    obtain ⟨pr, hpr⟩ := simTick_ok n lat lon off hne snow ft fa tr m
    obtain ⟨recs, hr⟩ := ih pr.1
    refine ⟨pr.2 :: recs, ?_⟩
    unfold simLoop
    rw [hpr]
    dsimp only
    rw [hr]

lemma optimize_movement_spec
    (predict : ℝ → ℝ → ℝ → ℝ → ℝ) (motor_energy_cost : ℝ)
    (ct tt ca ta : ℝ) (dt : Datetime) (temp cloud zen area eff : ℝ) :
    ((optimize_movement predict motor_energy_cost ct tt ca ta dt temp cloud zen
        area eff).move_approved = true ↔
      energy_gain (predict ((dt.hour : ℝ) + (dt.minute : ℝ) / 60) temp cloud zen)
        area eff ct tt ca ta > motor_energy_cost) ∧
    ((optimize_movement predict motor_energy_cost ct tt ca ta dt temp cloud zen
        area eff).move_approved = false →
      (optimize_movement predict motor_energy_cost ct tt ca ta dt temp cloud zen
        area eff).final_tilt = ct ∧
      (optimize_movement predict motor_energy_cost ct tt ca ta dt temp cloud zen
        area eff).final_azimuth = ca) := by
  by_cases h : energy_gain (predict ((dt.hour : ℝ) + (dt.minute : ℝ) / 60) temp cloud zen)
      area eff ct tt ca ta ≤ motor_energy_cost
  · have hres : optimize_movement predict motor_energy_cost ct tt ca ta dt temp cloud zen
        area eff = ⟨false, predict ((dt.hour : ℝ) + (dt.minute : ℝ) / 60) temp cloud zen,
          ct, ca⟩ := by
      simp only [optimize_movement]
      rw [if_pos h]
    rw [hres]
    constructor
    · exact iff_of_false (by simp) (not_lt.mpr h)
    · intro _
      exact ⟨rfl, rfl⟩
  · have hres : optimize_movement predict motor_energy_cost ct tt ca ta dt temp cloud zen
        area eff = ⟨true, predict ((dt.hour : ℝ) + (dt.minute : ℝ) / 60) temp cloud zen,
          tt, ta⟩ := by
      simp only [optimize_movement]
      rw [if_neg h]
    rw [hres]
    constructor
    · exact iff_of_true rfl (not_le.mp h)
    · intro hc
      exact absurd hc (by simp)

/-! ## Claim theorems -/

/-- C7: for every latitude, longitude, UTC offset and timestamp, the solar
position computation returns a zenith in [0, 180], an azimuth in [0, 360)
(strictly below 360) and a solar time in [0, 24) (strictly below 24); the
zenith bound goes through the clamp of the cosine argument to [-1, 1]
before arccos. -/
theorem C7_solar_position_ranges (dt : Datetime) (lat lon off : ℝ) :
    0 ≤ (get_target_angles dt lat lon off).zenith ∧
    (get_target_angles dt lat lon off).zenith ≤ 180 ∧
    0 ≤ (get_target_angles dt lat lon off).azimuth ∧
    (get_target_angles dt lat lon off).azimuth < 360 ∧
    0 ≤ (get_target_angles dt lat lon off).solar_time ∧
    (get_target_angles dt lat lon off).solar_time < 24 := by
  have hst := solar_time_bounds dt lon off
  have hh : hour_angle (calculate_solar_time dt lon off) < 180 := by
    unfold hour_angle
    linarith [hst.2]
  have hz := zenith_deg_bounds lat (solar_declination dt.dayOfYear)
    (hour_angle (calculate_solar_time dt lon off))
  have ha := azimuth_deg_bounds lat (solar_declination dt.dayOfYear)
    (hour_angle (calculate_solar_time dt lon off))
    (abs_solar_declination_le dt.dayOfYear) hh
  simp only [get_target_angles]
  exact ⟨hz.1, hz.2, ha.1, ha.2, hst.1, hst.2⟩

/-- C3: optimize_movement approves the move exactly when the computed
energy gain strictly exceeds the configured actuator cost (so a gain equal
to the cost is rejected), and every rejection returns the unchanged current
tilt and azimuth. -/
theorem C3_move_approved_iff_gain_exceeds_cost
    (predict : ℝ → ℝ → ℝ → ℝ → ℝ) (motor_energy_cost : ℝ)
    (ct tt ca ta : ℝ) (dt : Datetime) (temp cloud zen area eff : ℝ) :
    ((optimize_movement predict motor_energy_cost ct tt ca ta dt temp cloud zen
        area eff).move_approved = true ↔
      energy_gain (predict ((dt.hour : ℝ) + (dt.minute : ℝ) / 60) temp cloud zen)
        area eff ct tt ca ta > motor_energy_cost) ∧
    ((optimize_movement predict motor_energy_cost ct tt ca ta dt temp cloud zen
        area eff).move_approved = false →
      (optimize_movement predict motor_energy_cost ct tt ca ta dt temp cloud zen
        area eff).final_tilt = ct ∧
      (optimize_movement predict motor_energy_cost ct tt ca ta dt temp cloud zen
        area eff).final_azimuth = ca) :=
  optimize_movement_spec predict motor_energy_cost ct tt ca ta dt temp cloud zen area eff

/-- C3 witness: a zero-irradiance prediction yields zero gain, which does
not exceed the default 2.5 Wh motor cost, so the move is rejected and the
current angles 10 and 20 are returned unchanged. -/
theorem C3_witness :
    (optimize_movement (fun _ _ _ _ => 0) 2.5 10 50 20 200 dtDay 0 0 0 2 0.2).move_approved
      = false ∧
    (optimize_movement (fun _ _ _ _ => 0) 2.5 10 50 20 200 dtDay 0 0 0 2 0.2).final_tilt
      = 10 ∧
    (optimize_movement (fun _ _ _ _ => 0) 2.5 10 50 20 200 dtDay 0 0 0 2 0.2).final_azimuth
      = 20 := by
  have happr : (optimize_movement (fun _ _ _ _ => 0) 2.5 10 50 20 200 dtDay 0 0 0 2
      0.2).move_approved = false := by
    have hg : energy_gain ((fun (_ _ _ _ : ℝ) => (0:ℝ)) ((dtDay.hour : ℝ) +
        (dtDay.minute : ℝ) / 60) 0 0 0) 2 0.2 10 50 20 200 ≤ 2.5 := by
      simp only [energy_gain]
      norm_num
    simp only [optimize_movement]
    rw [if_pos hg]
  have hrest := (C3_move_approved_iff_gain_exceeds_cost (fun _ _ _ _ => 0) 2.5
    10 50 20 200 dtDay 0 0 0 2 0.2).2 happr
  exact ⟨happr, hrest.1, hrest.2⟩

/-- C4 counterexample: with the source defaults area 2.0 and efficiency
0.2 and a predicted irradiance of 30 W per square metre, the expected
energy when moving computed by the controller is 2 Wh, not the claimed
irradiance times ten minutes (5 Wh): area and efficiency ARE applied
inside the core decision. -/
theorem C4_counterexample :
    expected_energy_moving_wh 30 2 0.2 ≠ 30 * (10 / 60) := by
  unfold expected_energy_moving_wh
  norm_num

/-- C4 (amended): the expected energies of optimize_movement carry the
panel-area and efficiency factors, so the move is approved exactly when
predicted irradiance times area times efficiency times the incidence
shortfall (1 minus the clamped cosine factor) over ten minutes exceeds the
motor cost. -/
theorem C4_energy_scaling
    (predict : ℝ → ℝ → ℝ → ℝ → ℝ) (motor_energy_cost : ℝ)
    (ct tt ca ta : ℝ) (dt : Datetime) (temp cloud zen area eff : ℝ) :
    (optimize_movement predict motor_energy_cost ct tt ca ta dt temp cloud zen
        area eff).move_approved = true ↔
      predict ((dt.hour : ℝ) + (dt.minute : ℝ) / 60) temp cloud zen * area * eff *
        (1 - max 0 (Real.cos (radians (tt - ct)) * Real.cos (radians (ta - ca)))) *
        (10 / 60) > motor_energy_cost := by
  have hg : energy_gain (predict ((dt.hour : ℝ) + (dt.minute : ℝ) / 60) temp cloud zen)
      area eff ct tt ca ta =
      predict ((dt.hour : ℝ) + (dt.minute : ℝ) / 60) temp cloud zen * area * eff *
        (1 - max 0 (Real.cos (radians (tt - ct)) * Real.cos (radians (ta - ca)))) *
        (10 / 60) := by
    simp only [energy_gain]
    ring
  rw [← hg]
  exact (optimize_movement_spec predict motor_energy_cost ct tt ca ta
    dt temp cloud zen area eff).1

/-- C1 counterexample: at local midnight of day 1 (zenith above 90) with
winter mode active (temperature 0 below 2 and snow detected) and a first,
non-skipped call, the committed azimuth is 180 (night stow), not the
pre-call current azimuth 90: azimuth is not frozen at timestamps where the
solar zenith exceeds 90 degrees. -/
theorem C1_counterexample :
    (0 : ℝ) < 2 ∧
    (DualAxisTracker.update 0 0 0 ⟨70, 90, none, false⟩ dtNight 0 true 10).2.action ≠
      TrackerAction.skip ∧
    (DualAxisTracker.update 0 0 0 ⟨70, 90, none, false⟩ dtNight 0 true 10).2.azimuth ≠
      (⟨70, 90, none, false⟩ : TrackerState).current_azimuth := by
  have heq := update_of_last_none 0 0 0 ⟨70, 90, none, false⟩ dtNight 0 true 10 rfl
  have hwb : (if (0 : ℝ) < 2 then true else false) = true := by norm_num
  rw [hwb] at heq
  have hn := commitResult_night 0 0 0 ⟨70, 90, none, false⟩ dtNight true night_zenith_gt_90
  refine ⟨by norm_num, ?_, ?_⟩
  · rw [heq]
    exact commitResult_action_ne_skip 0 0 0 ⟨70, 90, none, false⟩ dtNight true
  · rw [heq, hn.2]
    norm_num

/-- C1 (amended): when winter mode is active and the call is not skipped,
the committed azimuth equals the pre-call current azimuth for every
timestamp whose solar zenith is at most 90 degrees; when the zenith
exceeds 90 the night-stow override instead forces azimuth 180. The
pre-call azimuth is assumed inside its data-model range [0, 360). -/
theorem C1_winter_azimuth_frozen_when_sun_up
    (lat lon off : ℝ) (s : TrackerState) (dt : Datetime) (temp : ℝ) (snow : Bool)
    (mi : ℝ)
    (hw : temp < 2) (hsn : snow = true)
    (hns : (DualAxisTracker.update lat lon off s dt temp snow mi).2.action ≠
      TrackerAction.skip)
    (hz : ¬ ((get_target_angles dt lat lon off).zenith > 90))
    (h0 : 0 ≤ s.current_azimuth) (h1 : s.current_azimuth < 360) :
    (DualAxisTracker.update lat lon off s dt temp snow mi).2.azimuth =
      s.current_azimuth ∧
    (DualAxisTracker.update lat lon off s dt temp snow mi).1.current_azimuth =
      s.current_azimuth := by
  have heq := update_not_skip lat lon off s dt temp snow mi hns
  have hwb : (if temp < 2 then snow else false) = true := by
    rw [if_pos hw, hsn]
  rw [hwb] at heq
  rw [heq]
  exact commitResult_winter_day lat lon off s dt hz h0 h1

/-- C1 witness: at local noon of day 1 (zenith below 90), a winter-mode
first call freezes the committed azimuth at the pre-call value 90. -/
theorem C1_witness :
    (DualAxisTracker.update 0 0 0 ⟨10, 90, none, false⟩ dtDay 0 true 10).2.azimuth = 90 ∧
    (DualAxisTracker.update 0 0 0 ⟨10, 90, none, false⟩ dtDay 0 true 10).1.current_azimuth
      = 90 := by
  have hns : (DualAxisTracker.update 0 0 0 ⟨10, 90, none, false⟩ dtDay 0 true 10).2.action ≠
      TrackerAction.skip := by
    rw [update_of_last_none 0 0 0 ⟨10, 90, none, false⟩ dtDay 0 true 10 rfl]
    exact commitResult_action_ne_skip 0 0 0 ⟨10, 90, none, false⟩ dtDay _
  exact C1_winter_azimuth_frozen_when_sun_up 0 0 0 ⟨10, 90, none, false⟩ dtDay 0 true 10
    (by norm_num) rfl hns (not_lt.mpr (le_of_lt day_zenith_lt_90)) (by norm_num)
    (by norm_num)

/-- C5: on a non-skipped call at a timestamp whose solar zenith exceeds 90
degrees, the tracker commits exactly tilt 0 and azimuth 180 when winter
mode is inactive, and exactly tilt 65 when winter mode is active. -/
theorem C5_night_stow_angles
    (lat lon off : ℝ) (s : TrackerState) (dt : Datetime) (temp : ℝ) (snow : Bool)
    (mi : ℝ)
    (hns : (DualAxisTracker.update lat lon off s dt temp snow mi).2.action ≠
      TrackerAction.skip)
    (hz : (get_target_angles dt lat lon off).zenith > 90) :
    (¬ (temp < 2 ∧ snow = true) →
      (DualAxisTracker.update lat lon off s dt temp snow mi).2.tilt = 0 ∧
      (DualAxisTracker.update lat lon off s dt temp snow mi).2.azimuth = 180) ∧
    ((temp < 2 ∧ snow = true) →
      (DualAxisTracker.update lat lon off s dt temp snow mi).2.tilt = 65) := by
  have heq := update_not_skip lat lon off s dt temp snow mi hns
  constructor
  · intro hnw
    have hwb : (if temp < 2 then snow else false) = false := by
      by_cases ht : temp < 2
      · rw [if_pos ht]
        cases hsn : snow with
        | false => rfl
        | true => exact absurd ⟨ht, hsn⟩ hnw
      · rw [if_neg ht]
    rw [hwb] at heq
    rw [heq]
    have hn := commitResult_night lat lon off s dt false hz
    exact ⟨by simpa using hn.1, hn.2⟩
  · intro hwin
    have hwb : (if temp < 2 then snow else false) = true := by
      rw [if_pos hwin.1, hwin.2]
    rw [hwb] at heq
    rw [heq]
    have hn := commitResult_night lat lon off s dt true hz
    simpa using hn.1

/-- C5 witness: at local midnight of day 1 without winter conditions, the
first call stows the tracker at tilt 0 and azimuth 180. -/
theorem C5_witness :
    (DualAxisTracker.update 0 0 0 initState dtNight 5 false 10).2.tilt = 0 ∧
    (DualAxisTracker.update 0 0 0 initState dtNight 5 false 10).2.azimuth = 180 := by
  have hns : (DualAxisTracker.update 0 0 0 initState dtNight 5 false 10).2.action ≠
      TrackerAction.skip := by
    rw [update_of_last_none 0 0 0 initState dtNight 5 false 10 rfl]
    exact commitResult_action_ne_skip 0 0 0 initState dtNight _
  exact (C5_night_stow_angles 0 0 0 initState dtNight 5 false 10 hns
    night_zenith_gt_90).1 (by norm_num)

/-- C2 counterexample: a call five minutes after the previous update with
freezing temperature and snow is skipped (five is below the 60-minute
winter interval), yet the stored is_winter_mode_active flag changes from
false to true: a skipped call does mutate tracker state. -/
theorem C2_counterexample :
    (DualAxisTracker.update 0 0 0 ⟨10, 20, some ⟨1, 0, 0, 0, 0⟩, false⟩
      ⟨1, 0, 5, 0, 5⟩ 0 true 10).2.action = TrackerAction.skip ∧
    (DualAxisTracker.update 0 0 0 ⟨10, 20, some ⟨1, 0, 0, 0, 0⟩, false⟩
      ⟨1, 0, 5, 0, 5⟩ 0 true 10).1.is_winter_mode_active ≠
      (⟨10, 20, some ⟨1, 0, 0, 0, 0⟩, false⟩ : TrackerState).is_winter_mode_active := by
  have hwb : (if (0 : ℝ) < 2 then true else false) = true := by norm_num
  have hlt : (⟨1, 0, 5, 0, 5⟩ : Datetime).absMinutes -
      (⟨1, 0, 0, 0, 0⟩ : Datetime).absMinutes <
      (if (if (0 : ℝ) < 2 then true else false) = true then (60 : ℝ) else 10) := by
    rw [hwb]
    norm_num
  have heq := update_of_skip 0 0 0 ⟨10, 20, some ⟨1, 0, 0, 0, 0⟩, false⟩
    ⟨1, 0, 5, 0, 5⟩ 0 true 10 ⟨1, 0, 0, 0, 0⟩ rfl hlt
  rw [heq]
  refine ⟨rfl, ?_⟩
  rw [hwb]
  simp

/-- C2 (amended): a call whose elapsed time since the previous update is
below the effective interval (60 minutes with winter conditions, the
caller-supplied interval otherwise) returns the unchanged tilt and azimuth
with the skip action and leaves tilt, azimuth and last-update timestamp
unchanged; is_winter_mode_active, however, is recomputed from the call's
temperature and snow inputs even on a skipped call. -/
theorem C2_rate_limit_skip
    (lat lon off : ℝ) (s : TrackerState) (dt : Datetime) (temp : ℝ) (snow : Bool)
    (mi : ℝ) (last : Datetime)
    (hlast : s.last_update_time = some last)
    (hlt : dt.absMinutes - last.absMinutes <
      (if (if temp < 2 then snow else false) = true then (60 : ℝ) else mi)) :
    (DualAxisTracker.update lat lon off s dt temp snow mi).2.action =
      TrackerAction.skip ∧
    (DualAxisTracker.update lat lon off s dt temp snow mi).2.tilt = s.current_tilt ∧
    (DualAxisTracker.update lat lon off s dt temp snow mi).2.azimuth =
      s.current_azimuth ∧
    (DualAxisTracker.update lat lon off s dt temp snow mi).1.current_tilt =
      s.current_tilt ∧
    (DualAxisTracker.update lat lon off s dt temp snow mi).1.current_azimuth =
      s.current_azimuth ∧
    (DualAxisTracker.update lat lon off s dt temp snow mi).1.last_update_time =
      s.last_update_time ∧
    (DualAxisTracker.update lat lon off s dt temp snow mi).1.is_winter_mode_active =
      (if temp < 2 then snow else false) := by
  rw [update_of_skip lat lon off s dt temp snow mi last hlast hlt]
  exact ⟨rfl, rfl, rfl, rfl, rfl, rfl, rfl⟩

/-- C2 witness: without winter conditions, a call five minutes after the
previous update against a ten-minute interval is skipped and every state
field, including the winter flag, keeps its value. -/
theorem C2_witness :
    (DualAxisTracker.update 0 0 0 ⟨30, 40, some ⟨1, 0, 0, 0, 0⟩, false⟩
      ⟨1, 0, 5, 0, 5⟩ 5 false 10).2.action = TrackerAction.skip ∧
    (DualAxisTracker.update 0 0 0 ⟨30, 40, some ⟨1, 0, 0, 0, 0⟩, false⟩
      ⟨1, 0, 5, 0, 5⟩ 5 false 10).2.tilt = 30 ∧
    (DualAxisTracker.update 0 0 0 ⟨30, 40, some ⟨1, 0, 0, 0, 0⟩, false⟩
      ⟨1, 0, 5, 0, 5⟩ 5 false 10).2.azimuth = 40 ∧
    (DualAxisTracker.update 0 0 0 ⟨30, 40, some ⟨1, 0, 0, 0, 0⟩, false⟩
      ⟨1, 0, 5, 0, 5⟩ 5 false 10).1.current_tilt = 30 ∧
    (DualAxisTracker.update 0 0 0 ⟨30, 40, some ⟨1, 0, 0, 0, 0⟩, false⟩
      ⟨1, 0, 5, 0, 5⟩ 5 false 10).1.current_azimuth = 40 ∧
    (DualAxisTracker.update 0 0 0 ⟨30, 40, some ⟨1, 0, 0, 0, 0⟩, false⟩
      ⟨1, 0, 5, 0, 5⟩ 5 false 10).1.last_update_time = some ⟨1, 0, 0, 0, 0⟩ ∧
    (DualAxisTracker.update 0 0 0 ⟨30, 40, some ⟨1, 0, 0, 0, 0⟩, false⟩
      ⟨1, 0, 5, 0, 5⟩ 5 false 10).1.is_winter_mode_active =
      (if (5 : ℝ) < 2 then false else false) :=
  C2_rate_limit_skip 0 0 0 ⟨30, 40, some ⟨1, 0, 0, 0, 0⟩, false⟩ ⟨1, 0, 5, 0, 5⟩ 5
    false 10 ⟨1, 0, 0, 0, 0⟩ rfl
    (by rw [ite_self]; norm_num)

/-- Ordering on stored update timestamps: absent is below everything, and
present timestamps compare by absolute minutes. -/
def lastLE : Option Datetime → Option Datetime → Prop
  | none, _ => True
  | some _, none => False
  | some a, some b => a.absMinutes ≤ b.absMinutes

lemma commitResult_state_bounds (lat lon off : ℝ) (s : TrackerState)
    (dt : Datetime) (w : Bool) :
    0 ≤ (commitResult lat lon off s dt w).1.current_tilt ∧
    (commitResult lat lon off s dt w).1.current_tilt ≤ 90 ∧
    0 ≤ (commitResult lat lon off s dt w).1.current_azimuth ∧
    (commitResult lat lon off s dt w).1.current_azimuth < 360 := by
  unfold commitResult
  refine ⟨le_max_left 0 _, ?_, pymod_nonneg (by norm_num) _, pymod_lt (by norm_num) _⟩
  exact max_le (by norm_num) (min_le_left 90 _)

/-- C8: every call of DualAxisTracker.update keeps the committed tilt in
[0, 90] and the committed azimuth in [0, 360), and never moves the stored
last-update timestamp backwards, whether the call commits or skips. The
pre-call state is assumed inside those same data-model ranges and the
caller-supplied interval is assumed non-negative. -/
theorem C8_invariants_preserved
    (lat lon off : ℝ) (s : TrackerState) (dt : Datetime) (temp : ℝ) (snow : Bool)
    (mi : ℝ)
    (ht0 : 0 ≤ s.current_tilt) (ht1 : s.current_tilt ≤ 90)
    (ha0 : 0 ≤ s.current_azimuth) (ha1 : s.current_azimuth < 360)
    (hmi : 0 ≤ mi) :
    0 ≤ (DualAxisTracker.update lat lon off s dt temp snow mi).1.current_tilt ∧
    (DualAxisTracker.update lat lon off s dt temp snow mi).1.current_tilt ≤ 90 ∧
    0 ≤ (DualAxisTracker.update lat lon off s dt temp snow mi).1.current_azimuth ∧
    (DualAxisTracker.update lat lon off s dt temp snow mi).1.current_azimuth < 360 ∧
    lastLE s.last_update_time
      (DualAxisTracker.update lat lon off s dt temp snow mi).1.last_update_time := by
  rcases hl : s.last_update_time with _ | last
  · have heq := update_of_last_none lat lon off s dt temp snow mi hl
    rw [heq]
    have hb := commitResult_state_bounds lat lon off s dt
      (if temp < 2 then snow else false)
    refine ⟨hb.1, hb.2.1, hb.2.2.1, hb.2.2.2, ?_⟩
    rw [commitResult_last]
    trivial
  · by_cases hc : dt.absMinutes - last.absMinutes <
        (if (if temp < 2 then snow else false) = true then (60 : ℝ) else mi)
    · have heq := update_of_skip lat lon off s dt temp snow mi last hl hc
      rw [heq]
      refine ⟨ht0, ht1, ha0, ha1, ?_⟩
      rw [hl]
      simp only [lastLE]
      exact le_refl _
    · have heq := update_of_some_no_skip lat lon off s dt temp snow mi last hl hc
      rw [heq]
      have hb := commitResult_state_bounds lat lon off s dt
        (if temp < 2 then snow else false)
      refine ⟨hb.1, hb.2.1, hb.2.2.1, hb.2.2.2, ?_⟩
      rw [commitResult_last]
      have hint : (0 : ℝ) ≤
          (if (if temp < 2 then snow else false) = true then (60 : ℝ) else mi) := by
        split_ifs <;> first | exact hmi | norm_num
      push_neg at hc
      simp only [lastLE]
      linarith

/-- C8 witness: the initial state satisfies the ranges, and a first noon
call preserves them with a non-negative ten-minute interval. -/
theorem C8_witness :
    0 ≤ (DualAxisTracker.update 0 0 0 initState dtDay 5 false 10).1.current_tilt ∧
    (DualAxisTracker.update 0 0 0 initState dtDay 5 false 10).1.current_tilt ≤ 90 ∧
    0 ≤ (DualAxisTracker.update 0 0 0 initState dtDay 5 false 10).1.current_azimuth ∧
    (DualAxisTracker.update 0 0 0 initState dtDay 5 false 10).1.current_azimuth < 360 ∧
    lastLE initState.last_update_time
      (DualAxisTracker.update 0 0 0 initState dtDay 5 false 10).1.last_update_time :=
  C8_invariants_preserved 0 0 0 initState dtDay 5 false 10 (le_refl 0)
    (by norm_num [initState]) (le_refl 0) (by norm_num [initState]) (by norm_num)

/-- C10: the first call on a freshly constructed tracker is never skipped,
whatever the supplied minimum update interval: the interval gate needs a
previous update timestamp and the fresh state has none, so the call
commits and records the call timestamp. -/
theorem C10_first_call_commits (lat lon off : ℝ) (dt : Datetime) (temp : ℝ)
    (snow : Bool) (mi : ℝ) :
    (DualAxisTracker.update lat lon off initState dt temp snow mi).2.action ≠
      TrackerAction.skip ∧
    (DualAxisTracker.update lat lon off initState dt temp snow mi).1.last_update_time =
      some dt := by
  have heq := update_of_last_none lat lon off initState dt temp snow mi rfl
  rw [heq]
  exact ⟨commitResult_action_ne_skip lat lon off initState dt _,
    commitResult_last lat lon off initState dt _⟩

/-- C6 counterexample: simulate_day performs no input validation. With an
empty temperature list it fails with the IndexError of the temps lookup at
the first tick, not with an InvalidInputError (the source defines no such
error); and with latitude 200, far outside the geographic bounds, it runs
to completion instead of failing. -/
theorem C6_counterexample :
    simulate_day 15 200 (-118) (-8) [] true 30 180 =
      Except.error PyError.indexError ∧
    simOk (simulate_day 15 200 (-118) (-8) [-5] true 30 180) = true := by
  constructor
  · unfold simulate_day
    cases hl : (List.range 144).map (fun k => k * 10) with
    | nil =>
      have := congrArg List.length hl
      simp at this
    | cons m ms =>
      exact simLoop_empty_temps 15 200 (-118) (-8) true 30 180 initState m ms
  · obtain ⟨recs, hr⟩ := simLoop_ok 15 200 (-118) (-8)
      (by simp : ([(-5 : ℝ)] : List ℝ) ≠ []) true 30 180
      ((List.range 144).map (fun k => k * 10)) initState
    unfold simulate_day
    rw [hr]
    rfl

/-- C6 (amended): simulate_day validates nothing. For every latitude,
longitude, UTC offset and day, an empty temperature list makes the run
fail with an index error at the first tick, while any non-empty
temperature list makes the run succeed, geographic bounds included or not.
-/
theorem C6_no_input_validation (n : ℕ) (lat lon off : ℝ) (snow : Bool)
    (ft fa : ℝ) (temps : List ℝ) :
    (temps = [] →
      simulate_day n lat lon off temps snow ft fa =
        Except.error PyError.indexError) ∧
    (temps ≠ [] → simOk (simulate_day n lat lon off temps snow ft fa) = true) := by
  constructor
  · intro he
    subst he
    unfold simulate_day
    cases hl : (List.range 144).map (fun k => k * 10) with
    | nil =>
      have := congrArg List.length hl
      simp at this
    | cons m ms =>
      exact simLoop_empty_temps n lat lon off snow ft fa initState m ms
  · intro hne
    obtain ⟨recs, hr⟩ := simLoop_ok n lat lon off hne snow ft fa
      ((List.range 144).map (fun k => k * 10)) initState
    unfold simulate_day
    rw [hr]
    rfl

/-- C6 witness: a concrete empty-profile run fails with the index error
and a concrete out-of-bounds run with a one-entry profile succeeds. -/
theorem C6_witness :
    simulate_day 20 35 (-118) (-8) [] true 30 180 =
      Except.error PyError.indexError ∧
    simOk (simulate_day 20 (-200) 500 (-8) [5] true 30 180) = true :=
  ⟨(C6_no_input_validation 20 35 (-118) (-8) true 30 180 []).1 rfl,
   (C6_no_input_validation 20 (-200) 500 (-8) true 30 180 [5]).2 (by simp)⟩
